import Mathlib

/-!
Verification of the `python-mcp-server-template` repository.

Shallow embedding of the parts of the source that the claims are about:

* `validate_path` — the path-sandboxing guard of `src/mcp_server.py`
  (lines 30-42; `src/mcp_server_official.py` is textually the same function).
  The Python expression `Path(base) / p` followed by `.resolve()` is modelled lexically
  (split on `/`, drop `""` and `"."` components, let `".."` pop one
  component, with `/..` staying at the root), which matches `pathlib`
  resolution on a symlink-free tree.  Python `str.startswith` is
  modelled as a character-list check.
* `run_command` / `run_shell_command` — the command runner of
  `src/mcp_server.py` (lines 45-73 and 219-248).  The behaviour of
  `subprocess.run` is an explicit parameter of the environment, except
  for the stdlib fact that `subprocess.run([])` raises
  `IndexError("list index out of range")` before any process is spawned.
* `_check_optional_features`, `_setup_logging`, `_setup_metrics`,
  `_setup_rate_limiting` and the `with_monitoring` decorator of
  `src/mcp_server/server.py` (lines 39-216).  Module globals become the
  `Globals` record, a Python `raise` becomes an `Except.error` carrying
  the exception class name and message, and the wrapped implementation
  becomes an explicit state transformer on an abstract world type so
  that its side effects are observable.  The plain logging fallback
  (`rich`) is a declared project dependency and is modelled as always
  importable; the optional backends (`structlog`, `prometheus_client`,
  `limits`) have explicit availability flags.
* `read_file` — the file-reading tool of `src/mcp_server.py`
  (lines 142-182), over an abstract file-system record.
-/

namespace MCPServer

/-- A raised Python exception: the exception class name and its message.
`MCPError` is the single exception class the servers define. -/
structure PyErr where
  kind : String
  msg : String
  deriving DecidableEq, Repr

/-! ## Path guard (`validate_path`, src/mcp_server.py lines 30-42) -/

/-- Model of Python `str.startswith`: character-list comparison. -/
def py_startswith (s pre : String) : Bool :=
  pre.data.isPrefixOf s.data

/-- Split a character list at every occurrence of `delim`; `acc` holds the
characters of the current piece in reverse. -/
def splitOnCharAux (delim : Char) : List Char → List Char → List String
  | [], acc => [String.mk acc.reverse]
  | c :: cs, acc =>
    if c = delim then String.mk acc.reverse :: splitOnCharAux delim cs []
    else splitOnCharAux delim cs (c :: acc)

/-- Split a string at every occurrence of `delim` (the single-separator
case of Python `str.split(sep)` and of `String.splitOn`). -/
def splitOnChar (delim : Char) (s : String) : List String :=
  splitOnCharAux delim s.data []

/-- Components of a POSIX path string: split on `/`, dropping empty
components and `"."` (as `pathlib` does when parsing). -/
def pathParts (s : String) : List String :=
  (splitOnChar '/' s).filter (fun c => c != "" && c != ".")

/-- Lexical `..` elimination of `Path.resolve` on an absolute path:
`..` pops the last component and at the root stays at the root. -/
def resolveParts (ps : List String) : List String :=
  ps.foldl (fun acc c => if c = ".." then acc.dropLast else acc ++ [c]) []

/-- Python `str(Path(...))` of an absolute path given by its components. -/
def renderAbs (ps : List String) : String :=
  "/" ++ String.intercalate "/" ps

/-- Model of `(Path(basePath) / path).resolve()`: an absolute right operand
discards the left one (as `pathlib` joining does); the result is then
canonicalized lexically.  `basePath` is absolute at every call site. -/
def py_resolve (basePath path : String) : String :=
  let joined := if py_startswith path "/" then path else basePath ++ "/" ++ path
  renderAbs (resolveParts (pathParts joined))

/-- Message of the containment-check failure raised at line 38. -/
def path_escape_msg (path : String) : String :=
  "Path " ++ path ++ " is outside allowed directory"

/-- Message format of the blanket handler at line 42: it wraps the message
of whatever exception reached it. -/
def invalid_path_msg (path cause : String) : String :=
  "Invalid path " ++ path ++ ": " ++ cause

/-- `validate_path` (src/mcp_server.py lines 30-42).  The `MCPError` raised
by the containment check at line 38 is itself caught by the
`except Exception` clause at line 41, so an escaping path surfaces as
an `MCPError` whose message reads: Invalid path p: Path p is outside allowed directory.
In the lexical model `.resolve()` is total, so the containment check is the
only failure source. -/
def validate_path (path : String) (basePath : String) : Except PyErr String :=
  let resolved := py_resolve basePath path
  let baseResolved := renderAbs (resolveParts (pathParts basePath))
  if py_startswith resolved baseResolved then .ok resolved
  else .error ⟨"MCPError", invalid_path_msg path (path_escape_msg path)⟩

/-- Formalization of the relation called descendant of (or equal to) in the spec:
the canonical components of `root` are a component-wise prefix of the
canonical components of `p`.  Used only to state containment claims. -/
def descendant_of (p root : String) : Bool :=
  (resolveParts (pathParts root)).isPrefixOf (resolveParts (pathParts p))

/-! ## Command runner (`run_command` / `run_shell_command`,
src/mcp_server.py lines 45-73 and 219-248) -/

/-- What `subprocess.run` does for a given invocation: the process
completes with an exit code and captured output, exceeds the timeout
(`subprocess.TimeoutExpired`), or the spawn raises with a message. -/
inductive ProcBehavior where
  | completed (returncode : Int) (stdout stderr : String)
  | timedOut
  | raised (msg : String)
  deriving DecidableEq, Repr

/-- Stdlib fact baked into the model: `subprocess.run([])` raises
`IndexError("list index out of range")` while reading `args[0]`, before
any process is spawned; otherwise the outcome is given by the environment. -/
def subprocess_run (command : List String) (behavior : ProcBehavior) : ProcBehavior :=
  if command.isEmpty then ProcBehavior.raised "list index out of range" else behavior

/-- Python `" ".join(command)`. -/
def joinSpace (l : List String) : String :=
  String.intercalate " " l

/-- The structured result dictionary built at lines 61-69. -/
structure CmdResult where
  command : String
  directory : String
  stdout : String
  stderr : String
  success : Bool
  return_code : Int
  status : String
  deriving DecidableEq, Repr

/-- Message of the `subprocess.TimeoutExpired` handler at line 71. -/
def timeout_msg (timeoutSecs : Nat) (command : List String) : String :=
  "Command timed out after " ++ toString timeoutSecs ++ " seconds: " ++ joinSpace command

/-- Message of the blanket `except Exception` handler at line 73. -/
def exec_failed_msg (cause : String) : String :=
  "Command execution failed: " ++ cause

/-- `run_command` (src/mcp_server.py lines 45-73).  `pycwd` is what
`os.getcwd()` returns when `cwd` is `None`. -/
def run_command (command : List String) (cwd : Option String) (timeoutSecs : Nat)
    (behavior : ProcBehavior) (pycwd : String) : Except PyErr CmdResult :=
  match subprocess_run command behavior with
  | .completed rc out err => .ok {
      command := joinSpace command
      directory := cwd.getD pycwd
      stdout := out
      stderr := err
      success := rc == 0
      return_code := rc
      status := if rc == 0 then "✅ Success" else "❌ Failed" }
  | .timedOut => .error ⟨"MCPError", timeout_msg timeoutSecs command⟩
  | .raised m => .error ⟨"MCPError", exec_failed_msg m⟩

/-- Helper for `py_split`: whitespace ends the current piece, empty pieces
are dropped, `acc` holds the current piece in reverse. -/
def pySplitAux : List Char → List Char → List String
  | [], acc => if acc.isEmpty then [] else [String.mk acc.reverse]
  | c :: cs, acc =>
    if c.isWhitespace then
      if acc.isEmpty then pySplitAux cs []
      else String.mk acc.reverse :: pySplitAux cs []
    else pySplitAux cs (c :: acc)

/-- Model of Python `str.split()` with no argument: split on whitespace
runs and drop empty pieces. -/
def py_split (s : String) : List String :=
  pySplitAux s.data []

/-- A caller-side classification of the two failure messages of
`run_command`, by their fixed leading text. -/
def msg_kind_of (msg : String) : String :=
  if py_startswith msg "Command timed out after " then "CommandTimeout"
  else if py_startswith msg "Command execution failed: " then "CommandExecutionFailed"
  else "Other"

/-- `run_shell_command` (src/mcp_server.py lines 219-248).  `dirExists`
is what `path.exists()` returns for the validated directory.  The
`except MCPError: raise` clause of the body re-raises the errors of `validate_path`
and `run_command` unchanged, and `run_command` is called with the default
timeout of 30 seconds. -/
def run_shell_command (command directory : String) (dirExists : Bool)
    (behavior : ProcBehavior) (pycwd : String) : Except PyErr CmdResult :=
  match validate_path directory "/workspace" with
  | .error e => .error e
  | .ok p =>
    if !dirExists then .error ⟨"MCPError", "Directory " ++ directory ++ " does not exist"⟩
    else
      let cmd_parts := py_split command
      if cmd_parts.isEmpty then .error ⟨"MCPError", "Empty command provided"⟩
      else run_command cmd_parts (some p) 30 behavior pycwd

/-! ## Lazy infrastructure and the monitoring decorator
(src/mcp_server/server.py lines 34-216) -/

/-- Which optional third-party modules can be imported. -/
structure Avail where
  structlog_ok : Bool
  prometheus_ok : Bool
  limits_ok : Bool
  deriving DecidableEq, Repr

/-- The three module-level feature flags set by `_check_optional_features`. -/
structure Features where
  structured_logging : Bool
  metrics_enabled : Bool
  rate_limiting : Bool
  deriving DecidableEq, Repr

/-- `_check_optional_features` (lines 39-59): one `try` imports both
`structlog` and `prometheus_client` and only then assigns both flags, so
either import failing leaves both `False`; a second `try` imports
`limits`. -/
def check_optional_features (av : Avail)
    (enable_logging enable_metrics enable_rate_limiting : Bool) : Features :=
  { structured_logging := av.structlog_ok && av.prometheus_ok && enable_logging
    metrics_enabled := av.structlog_ok && av.prometheus_ok && enable_metrics
    rate_limiting := av.limits_ok && enable_rate_limiting }

/-- Which logging backend `_setup_logging` chose. -/
inductive LoggerKind where
  | structured
  | plain
  deriving DecidableEq, Repr

/-- The lazily-populated module globals of src/mcp_server/server.py
(lines 64-68), together with event counters that make externally
observable effects countable: handler installations, metric-instrument
registrations, and the labelled increments of `REQUEST_COUNT` /
observations of `REQUEST_DURATION` (aggregated over the `tool` label). -/
structure Globals where
  logger : Option LoggerKind
  request_count : Bool
  request_duration : Bool
  rate_limiter : Bool
  log_handler_installs : Nat
  metric_registrations : Nat
  success_count : Nat
  error_count : Nat
  rate_limited_count : Nat
  duration_obs : Nat
  deriving DecidableEq, Repr

/-- The state of the module globals at process start. -/
def initGlobals : Globals :=
  { logger := none, request_count := false, request_duration := false
    rate_limiter := false, log_handler_installs := 0, metric_registrations := 0
    success_count := 0, error_count := 0, rate_limited_count := 0, duration_obs := 0 }

/-- A Python `import` of an optional module: succeeds exactly when the
module is available, otherwise raises `ImportError`. -/
def importOrRaise (available : Bool) (modName : String) : Except PyErr Unit :=
  if available then .ok () else .error ⟨"ImportError", "No module named " ++ modName⟩

/-- `_setup_logging` (lines 70-107).  The structured branch runs
`structlog.configure` and the plain branch runs `logging.basicConfig`
with a `RichHandler`; either installs one set of handlers.  `rich` is a
declared dependency of the project, so only the import of the structured
branch can fail, and `STRUCTURED_LOGGING` is only `True` when `structlog`
imported successfully at feature-check time. -/
def setup_logging (f : Features) (av : Avail) (g : Globals) : Except PyErr Globals :=
  match g.logger with
  | some _ => .ok g
  | none =>
    if f.structured_logging then
      match importOrRaise av.structlog_ok "structlog" with
      | .error e => .error e
      | .ok _ => .ok { g with logger := some LoggerKind.structured
                              log_handler_installs := g.log_handler_installs + 1 }
    else
      .ok { g with logger := some LoggerKind.plain
                   log_handler_installs := g.log_handler_installs + 1 }

/-- `_setup_metrics` (lines 109-138): no-op unless `METRICS_ENABLED` and
not yet initialized; otherwise imports `prometheus_client`, registers the
`Counter` and `Histogram` instruments once, and attempts
`start_http_server`.  A port-binding failure is caught and logged as a
warning (both branches call `_setup_logging` and return normally), so
`portBindOk` does not affect the resulting state. -/
def setup_metrics (f : Features) (av : Avail) (portBindOk : Bool) (g : Globals) :
    Except PyErr Globals :=
  if !f.metrics_enabled || g.request_count then .ok g
  else
    match importOrRaise av.prometheus_ok "prometheus_client" with
    | .error e => .error e
    | .ok _ =>
      let g := { g with request_count := true, request_duration := true
                        metric_registrations := g.metric_registrations + 1 }
      let _ := portBindOk
      setup_logging f av g

/-- `_setup_rate_limiting` (lines 140-156): no-op unless `RATE_LIMITING`
and not yet initialized; otherwise imports `limits` and constructs the
fixed-window limiter backed by in-memory storage, then logs. -/
def setup_rate_limiting (f : Features) (av : Avail) (g : Globals) : Except PyErr Globals :=
  if g.rate_limiter || !f.rate_limiting then .ok g
  else
    match importOrRaise av.limits_ok "limits" with
    | .error e => .error e
    | .ok _ =>
      let g := { g with rate_limiter := true }
      setup_logging f av g

/-- The effect of a successful `_setup_logging` call on the globals. -/
def apply_logging (f : Features) (g : Globals) : Globals :=
  match g.logger with
  | some _ => g
  | none =>
    { g with logger := some (if f.structured_logging then LoggerKind.structured
                             else LoggerKind.plain)
             log_handler_installs := g.log_handler_installs + 1 }

/-- The effect of a successful `_setup_metrics` call on the globals. -/
def apply_metrics (f : Features) (g : Globals) : Globals :=
  if !f.metrics_enabled || g.request_count then g
  else apply_logging f { g with request_count := true, request_duration := true
                                metric_registrations := g.metric_registrations + 1 }

/-- The effect of a successful `_setup_rate_limiting` call on the globals. -/
def apply_rl (f : Features) (g : Globals) : Globals :=
  if g.rate_limiter || !f.rate_limiting then g
  else apply_logging f { g with rate_limiter := true }

/-- The globals after the three setup calls made at the top of the
`with_monitoring` wrapper, in source order (metrics, rate limiting,
logging). -/
def apply_setups (f : Features) (g : Globals) : Globals :=
  apply_logging f (apply_rl f (apply_metrics f g))

/-- `limits.strategies.FixedWindowRateLimiter.hit` within one window:
increments the counter stored for the key and permits the hit exactly
when the post-increment count is within the limit.  The count is
incremented even when the hit is denied (`storage.incr` is unconditional). -/
def limiter_hit (amount : Nat) (key : String) (st : String → Nat) :
    Bool × (String → Nat) :=
  let c := st key + 1
  (decide (c ≤ amount), fun k => if k = key then c else st k)

/-- The storage key the wrapper hits: namespace `"mcp_tools"` plus
the tool name, a colon and the client id (server.py line 175). -/
def rate_key (tool_name client_id : String) : String :=
  "mcp_tools/" ++ tool_name ++ ":" ++ client_id

/-- `REQUEST_COUNT.labels(status="rate_limited").inc()` guarded by
`METRICS_ENABLED and REQUEST_COUNT` (lines 176-177). -/
def bump_rate_limited (f : Features) (g : Globals) : Globals :=
  if f.metrics_enabled && g.request_count then
    { g with rate_limited_count := g.rate_limited_count + 1 }
  else g

/-- The success-path metric emission (lines 192-195): increment the
success counter and, if the histogram exists, observe the duration. -/
def bump_success (f : Features) (g : Globals) : Globals :=
  if f.metrics_enabled && g.request_count then
    { g with success_count := g.success_count + 1
             duration_obs := g.duration_obs + (if g.request_duration then 1 else 0) }
  else g

/-- The error-path metric emission (lines 205-206). -/
def bump_error (f : Features) (g : Globals) : Globals :=
  if f.metrics_enabled && g.request_count then
    { g with error_count := g.error_count + 1 }
  else g

/-- The `try`/`except` body of the wrapper (lines 186-213): run the
implementation; on normal return emit success metrics and return the
result unchanged; on an exception emit error metrics and re-raise the
same exception object (`raise` with no argument). -/
def run_impl {ω α : Type} (f : Features) (g : Globals) (lim : String → Nat) (w : ω)
    (impl : ω → ω × Except PyErr α) :
    Globals × (String → Nat) × ω × Except PyErr α :=
  match impl w with
  | (w2, .ok r) => (bump_success f g, lim, w2, .ok r)
  | (w2, .error e) => (bump_error f g, lim, w2, .error e)

/-- One invocation of the function returned by `with_monitoring(tool_name)`
(src/mcp_server/server.py lines 158-216).  The wrapped implementation is a
state transformer on an abstract world `ω`, so that any side effect it has
is visible as a change of the world.  The result quadruple is the state of
the module globals, the limiter storage, the world, and the call outcome
(normal return or raised exception).  Setup-phase exceptions propagate
with the globals unchanged (each `_setup_*` function imports before it
mutates); the rate-limit rejection raises an `Exception` whose message is
the text Rate limit exceeded for, then the tool name, before the
implementation runs. -/
def with_monitoring_wrapper {ω α : Type} (tool_name : String) (f : Features) (av : Avail)
    (amount : Nat) (portBindOk : Bool) (impl : ω → ω × Except PyErr α)
    (client_id : Option String) (g : Globals) (lim : String → Nat) (w : ω) :
    Globals × (String → Nat) × ω × Except PyErr α :=
  match setup_metrics f av portBindOk g with
  | .error e => (g, lim, w, .error e)
  | .ok g1 =>
  match setup_rate_limiting f av g1 with
  | .error e => (g1, lim, w, .error e)
  | .ok g2 =>
  match setup_logging f av g2 with
  | .error e => (g2, lim, w, .error e)
  | .ok g3 =>
    if f.rate_limiting && g3.rate_limiter then
      let cid := client_id.getD "default"
      let hit := limiter_hit amount (rate_key tool_name cid) lim
      if hit.1 then
        run_impl f g3 hit.2 w impl
      else
        (bump_rate_limited f g3, hit.2, w,
         .error ⟨"Exception", "Rate limit exceeded for " ++ tool_name⟩)
    else
      run_impl f g3 lim w impl

/-- Iterated calling of a setup function, propagating a raised exception. -/
def iterE (s : Globals → Except PyErr Globals) : Nat → Globals → Except PyErr Globals
  | 0, g => .ok g
  | n + 1, g =>
    match s g with
    | .error e => .error e
    | .ok g2 => iterE s n g2

/-! ## File reading (`read_file`, src/mcp_server.py lines 142-182) -/

/-- What the file system says about the validated path: existence, kind,
`stat().st_size`, whether the bytes decode as UTF-8, and the decoded
text. -/
structure FileStat where
  exists_ : Bool
  is_file : Bool
  size : Nat
  utf8_ok : Bool
  content : String
  deriving DecidableEq, Repr

/-- Python `len(s.splitlines())`: split on newlines without a trailing
empty piece. -/
def py_splitlines_count (s : String) : Nat :=
  let ps := splitOnChar '\n' s
  (if ps.getLast? == some "" then ps.dropLast else ps).length

/-- The result dictionary built at lines 168-175. -/
structure ReadResult where
  file_path : String
  content : String
  size : Nat
  lines : Nat
  encoding : String
  status : String
  deriving DecidableEq, Repr

/-- Message of the size-limit check at line 164. -/
def too_large_msg (fileSize maxSize : Nat) : String :=
  "File too large: " ++ toString fileSize ++ " bytes (max: " ++ toString maxSize ++ ")"

/-- `read_file` (src/mcp_server.py lines 142-182).  `max_size` defaults to
1048576 at the call boundary; the checks run in source order: path
validation, existence, kind, size, then the UTF-8 decode performed by
`read_text`. -/
def read_file (file_path : String) (max_size : Nat) (fs : FileStat) :
    Except PyErr ReadResult :=
  match validate_path file_path "/workspace" with
  | .error e => .error e
  | .ok p =>
    if !fs.exists_ then .error ⟨"MCPError", "File " ++ file_path ++ " does not exist"⟩
    else if !fs.is_file then .error ⟨"MCPError", file_path ++ " is not a file"⟩
    else if max_size < fs.size then .error ⟨"MCPError", too_large_msg fs.size max_size⟩
    else if !fs.utf8_ok then
      .error ⟨"MCPError", "File " ++ file_path ++ " is not valid UTF-8 text"⟩
    else
      .ok { file_path := p, content := fs.content, size := fs.size
            lines := py_splitlines_count fs.content
            encoding := "utf-8", status := "✅ Success" }


/-- Flag-availability consistency: each feature flag is only `true` when
the backing module imported successfully.  `_check_optional_features`
establishes exactly this, since it assigns a flag only after the
corresponding import succeeded. -/
def FlagsConsistent (f : Features) (av : Avail) : Prop :=
  (f.structured_logging = true → av.structlog_ok = true)
  ∧ (f.metrics_enabled = true → av.prometheus_ok = true)
  ∧ (f.rate_limiting = true → av.limits_ok = true)

/-- A sample wrapped implementation with a visible side effect (bumps the
world) and a normal return, used to instantiate the middleware claims. -/
def implW : Nat → Nat × Except PyErr String := fun w => (w + 1, .ok "done")

/-- A sample wrapped implementation that mutates the world and then
raises, used to instantiate the error-passthrough claim. -/
def implE : Nat → Nat × Except PyErr String := fun w => (w + 3, .error ⟨"ValueError", "boom"⟩)

end MCPServer

/-!
## Helper lemmas
-/

namespace MCPServer

theorem data_append (a b : String) : (a ++ b).data = a.data ++ b.data := rfl

theorem isPrefixOf_append_right {p r : List Char} : p.isPrefixOf (p ++ r) = true := by
  induction p with
  | nil => simp [List.isPrefixOf]
  | cons a as ih => simp [List.isPrefixOf, ih]

theorem not_isPrefixOf_of_append {p t r : List Char}
    (hlen : p.length ≤ t.length) (h : p.isPrefixOf t = false) :
    p.isPrefixOf (t ++ r) = false := by
  induction p generalizing t with
  | nil => simp [List.isPrefixOf] at h
  | cons a as ih =>
    cases t with
    | nil => simp at hlen
    | cons b bs =>
      simp only [List.cons_append, List.isPrefixOf] at h ⊢
      cases hab : (a == b) with
      | false => simp [hab]
      | true =>
        rw [hab, Bool.true_and] at h
        rw [Bool.true_and]
        exact ih (by simpa using hlen) h

theorem py_startswith_of_data (s pre : String) (r : List Char)
    (h : s.data = pre.data ++ r) : py_startswith s pre = true := by
  unfold py_startswith
  rw [h]
  exact isPrefixOf_append_right

theorem py_not_startswith_of_data (s pre : String) (t r : List Char)
    (h : s.data = t ++ r) (hlen : pre.data.length ≤ t.length)
    (hpf : pre.data.isPrefixOf t = false) : py_startswith s pre = false := by
  unfold py_startswith
  rw [h]
  exact not_isPrefixOf_of_append hlen hpf

theorem isEmpty_false_of_ne {command : List String} (h : command ≠ []) :
    command.isEmpty = false := by
  cases command with
  | nil => exact absurd rfl h
  | cons a l => rfl

theorem check_consistent (av : Avail) (el em er : Bool) :
    FlagsConsistent (check_optional_features av el em er) av := by
  refine ⟨?_, ?_, ?_⟩ <;> intro h <;>
    simp only [check_optional_features, Bool.and_eq_true] at h
  · exact h.1.1
  · exact h.1.2
  · exact h.1

theorem apply_logging_request_count (f : Features) (g : Globals) :
    (apply_logging f g).request_count = g.request_count := by
  unfold apply_logging
  cases g.logger <;> rfl

theorem apply_logging_rate_limiter (f : Features) (g : Globals) :
    (apply_logging f g).rate_limiter = g.rate_limiter := by
  unfold apply_logging
  cases g.logger <;> rfl

theorem apply_logging_metric_registrations (f : Features) (g : Globals) :
    (apply_logging f g).metric_registrations = g.metric_registrations := by
  unfold apply_logging
  cases g.logger <;> rfl

theorem setup_logging_eq (f : Features) (av : Avail) (g : Globals)
    (hc : f.structured_logging = true → av.structlog_ok = true) :
    setup_logging f av g = Except.ok (apply_logging f g) := by
  unfold setup_logging apply_logging
  cases hl : g.logger with
  | some lk => rfl
  | none =>
    cases hs : f.structured_logging with
    | false => simp
    | true => simp [importOrRaise, hc hs]

theorem setup_metrics_eq (f : Features) (av : Avail) (b : Bool) (g : Globals)
    (hcS : f.structured_logging = true → av.structlog_ok = true)
    (hcM : f.metrics_enabled = true → av.prometheus_ok = true) :
    setup_metrics f av b g = Except.ok (apply_metrics f g) := by
  unfold setup_metrics apply_metrics
  cases hm : f.metrics_enabled with
  | false => simp
  | true =>
    cases hr : g.request_count with
    | true => simp
    | false =>
      simp only [Bool.not_true, Bool.false_or, Bool.false_eq_true, if_false]
      rw [show importOrRaise av.prometheus_ok "prometheus_client" = .ok () by
        simp [importOrRaise, hcM hm]]
      exact setup_logging_eq f av _ hcS

theorem setup_rate_limiting_eq (f : Features) (av : Avail) (g : Globals)
    (hcS : f.structured_logging = true → av.structlog_ok = true)
    (hcR : f.rate_limiting = true → av.limits_ok = true) :
    setup_rate_limiting f av g = Except.ok (apply_rl f g) := by
  unfold setup_rate_limiting apply_rl
  cases hl : g.rate_limiter with
  | true => simp
  | false =>
    cases hr : f.rate_limiting with
    | false => simp
    | true =>
      simp only [Bool.not_true, Bool.false_or, Bool.false_eq_true, if_false]
      rw [show importOrRaise av.limits_ok "limits" = .ok () by
        simp [importOrRaise, hcR hr]]
      exact setup_logging_eq f av _ hcS

theorem apply_logging_idem (f : Features) (g : Globals) :
    apply_logging f (apply_logging f g) = apply_logging f g := by
  unfold apply_logging
  cases hl : g.logger with
  | some lk => simp [hl]
  | none => rfl

theorem apply_metrics_idem (f : Features) (g : Globals) :
    apply_metrics f (apply_metrics f g) = apply_metrics f g := by
  unfold apply_metrics
  cases hm : f.metrics_enabled with
  | false => simp
  | true =>
    cases hr : g.request_count with
    | true => simp [hm, hr]
    | false =>
      simp only [Bool.not_true, Bool.false_or, Bool.false_eq_true, if_false]
      rw [apply_logging_request_count]
      simp

theorem apply_rl_idem (f : Features) (g : Globals) :
    apply_rl f (apply_rl f g) = apply_rl f g := by
  unfold apply_rl
  cases hl : g.rate_limiter with
  | true => simp [hl]
  | false =>
    cases hr : f.rate_limiting with
    | false => simp
    | true =>
      simp only [Bool.not_true, Bool.false_or, Bool.false_eq_true, if_false]
      rw [apply_logging_rate_limiter]
      simp

theorem iterE_stable (s : Globals → Except PyErr Globals) (a : Globals → Globals)
    (hs : ∀ g, s g = .ok (a g)) (hi : ∀ g, a (a g) = a g) :
    ∀ n g, 1 ≤ n → iterE s n g = .ok (a g) := by
  intro n
  induction n with
  | zero => intro g h; exact absurd h (by omega)
  | succ m ih =>
    intro g _
    unfold iterE
    rw [hs g]
    cases m with
    | zero => rfl
    | succ k =>
      show iterE s (k + 1) (a g) = Except.ok (a g)
      rw [ih (a g) (by omega), hi g]

theorem apply_rl_sets (f : Features) (g : Globals) (h : f.rate_limiting = true) :
    (apply_rl f g).rate_limiter = true := by
  unfold apply_rl
  cases hl : g.rate_limiter with
  | true => simp [hl]
  | false =>
    simp only [h, Bool.not_true, Bool.or_false, hl, Bool.false_eq_true, if_false]
    rw [apply_logging_rate_limiter]

/-- When the limiter denies the hit, the wrapper result does not depend on
the implementation at all: the rejection is computed before the
implementation could run, and the world is returned unchanged. -/
theorem wrapper_rate_limited {ω α : Type} (tool : String) (f : Features) (av : Avail)
    (amount : Nat) (b : Bool) (impl : ω → ω × Except PyErr α) (cid : Option String)
    (g : Globals) (lim : String → Nat) (w : ω)
    (hc : FlagsConsistent f av) (hrl : f.rate_limiting = true)
    (hhit : (limiter_hit amount (rate_key tool (cid.getD "default")) lim).1 = false) :
    with_monitoring_wrapper tool f av amount b impl cid g lim w
      = (bump_rate_limited f (apply_setups f g),
         (limiter_hit amount (rate_key tool (cid.getD "default")) lim).2, w,
         .error ⟨"Exception", "Rate limit exceeded for " ++ tool⟩) := by
  obtain ⟨hcS, hcM, hcR⟩ := hc
  have h1 := setup_metrics_eq f av b g hcS hcM
  have h2 := setup_rate_limiting_eq f av (apply_metrics f g) hcS hcR
  have h3 := setup_logging_eq f av (apply_rl f (apply_metrics f g)) hcS
  have hX : (apply_logging f (apply_rl f (apply_metrics f g))).rate_limiter = true := by
    rw [apply_logging_rate_limiter]
    exact apply_rl_sets f _ hrl
  unfold with_monitoring_wrapper apply_setups
  simp only [h1, h2, h3, hrl, hX, Bool.and_self, if_true, hhit, Bool.false_eq_true, if_false]

/-- When rate limiting is off or the hit is allowed, the wrapper reduces
to running the implementation under the initialized globals. -/
theorem wrapper_reaches_impl {ω α : Type} (tool : String) (f : Features) (av : Avail)
    (amount : Nat) (b : Bool) (impl : ω → ω × Except PyErr α) (cid : Option String)
    (g : Globals) (lim : String → Nat) (w : ω)
    (hc : FlagsConsistent f av)
    (hok : f.rate_limiting = false
      ∨ (limiter_hit amount (rate_key tool (cid.getD "default")) lim).1 = true) :
    ∃ lim2, with_monitoring_wrapper tool f av amount b impl cid g lim w
      = run_impl f (apply_setups f g) lim2 w impl := by
  obtain ⟨hcS, hcM, hcR⟩ := hc
  have h1 := setup_metrics_eq f av b g hcS hcM
  have h2 := setup_rate_limiting_eq f av (apply_metrics f g) hcS hcR
  have h3 := setup_logging_eq f av (apply_rl f (apply_metrics f g)) hcS
  unfold with_monitoring_wrapper apply_setups
  simp only [h1, h2, h3]
  cases hrl : f.rate_limiting with
  | false => exact ⟨lim, by simp⟩
  | true =>
    cases hok with
    | inl h => rw [h] at hrl; cases hrl
    | inr hh =>
      have hX : (apply_logging f (apply_rl f (apply_metrics f g))).rate_limiter = true := by
        rw [apply_logging_rate_limiter]
        exact apply_rl_sets f _ hrl
      exact ⟨(limiter_hit amount (rate_key tool (cid.getD "default")) lim).2,
        by simp [hX, hh]⟩

end MCPServer

/-!
## Claim theorems
-/

namespace MCPServer

/-- Claim C1 (code bug): the claim states that every path returned by
`validate_path` is a descendant of (or equal to) the canonicalized sandbox
root, and that a `..`-containing relative path whose canonical join falls
outside the root raises an error.  The code violates this: for the input
`../workspace2/etc` under root `/workspace`, the canonical result
`/workspace2/etc` passes the string-prefix containment check (the string
`/workspace2/etc` starts with the string `/workspace`) although it is not
a descendant of the root, so `validate_path` returns it instead of
raising. -/
theorem C1_sibling_escape_accepted :
    validate_path "../workspace2/etc" "/workspace" = .ok "/workspace2/etc"
    ∧ descendant_of "/workspace2/etc" "/workspace" = false := ⟨rfl, rfl⟩

/-- Claim C2: for every wrapped operation, when the rate limit for the
key of that operation is already exhausted (the limiter hit returns
false) and rate limiting is active, the function produced by
`with_monitoring` raises the rate-limit-exceeded error, returns the world
unchanged (no side effect of the implementation occurs), and its result
does not depend on the implementation at all — the rate-limit check
precedes the implementation call. -/
theorem C2_rate_limit_blocks_impl {ω α : Type} (tool : String) (f : Features) (av : Avail)
    (el em er : Bool) (amount : Nat) (b : Bool) (impl : ω → ω × Except PyErr α)
    (cid : Option String) (g : Globals) (lim : String → Nat) (w : ω)
    (hf : f = check_optional_features av el em er)
    (hrl : f.rate_limiting = true)
    (hhit : (limiter_hit amount (rate_key tool (cid.getD "default")) lim).1 = false) :
    (∃ g2 lim2, with_monitoring_wrapper tool f av amount b impl cid g lim w
      = (g2, lim2, w, .error ⟨"Exception", "Rate limit exceeded for " ++ tool⟩))
    ∧ ∀ impl2 : ω → ω × Except PyErr α,
        with_monitoring_wrapper tool f av amount b impl2 cid g lim w
        = with_monitoring_wrapper tool f av amount b impl cid g lim w := by
  have hc : FlagsConsistent f av := by
    rw [hf]
    exact check_consistent av el em er
  constructor
  · exact ⟨_, _, wrapper_rate_limited tool f av amount b impl cid g lim w hc hrl hhit⟩
  · intro impl2
    rw [wrapper_rate_limited tool f av amount b impl cid g lim w hc hrl hhit,
        wrapper_rate_limited tool f av amount b impl2 cid g lim w hc hrl hhit]

/-- Witness for claim C2: with all backends available, a limit of 2 and a
window count already at 5, the wrapped echo tool is rejected with the
rate-limit message, the world 0 is unchanged, and any other
implementation gives the same outcome. -/
theorem C2_witness :
    (∃ g2 lim2,
      with_monitoring_wrapper "echo" (check_optional_features ⟨true, true, true⟩ true true true)
        ⟨true, true, true⟩ 2 true implW none initGlobals (fun _ => 5) (0 : Nat)
      = (g2, lim2, 0, .error ⟨"Exception", "Rate limit exceeded for " ++ "echo"⟩))
    ∧ ∀ impl2 : Nat → Nat × Except PyErr String,
        with_monitoring_wrapper "echo" (check_optional_features ⟨true, true, true⟩ true true true)
          ⟨true, true, true⟩ 2 true impl2 none initGlobals (fun _ => 5) (0 : Nat)
        = with_monitoring_wrapper "echo" (check_optional_features ⟨true, true, true⟩ true true true)
            ⟨true, true, true⟩ 2 true implW none initGlobals (fun _ => 5) (0 : Nat) :=
  C2_rate_limit_blocks_impl "echo" (check_optional_features ⟨true, true, true⟩ true true true)
    ⟨true, true, true⟩ true true true 2 true implW none initGlobals (fun _ => 5) 0 rfl rfl rfl

/-- Claim C3: whenever the invocation reaches the wrapped implementation
(rate limiting off, or the hit allowed) and the implementation raises an
error of kind K with message M, the middleware-wrapped call raises the
very same error value (same kind, same message), with the implementation
side effects on the world preserved — the middleware never swallows or
rewrites implementation errors. -/
theorem C3_error_passthrough {ω α : Type} (tool : String) (f : Features) (av : Avail)
    (el em er : Bool) (amount : Nat) (b : Bool) (impl : ω → ω × Except PyErr α)
    (cid : Option String) (g : Globals) (lim : String → Nat) (w w2 : ω) (e : PyErr)
    (hf : f = check_optional_features av el em er)
    (hnb : f.rate_limiting = false
      ∨ (limiter_hit amount (rate_key tool (cid.getD "default")) lim).1 = true)
    (himpl : impl w = (w2, .error e)) :
    ∃ g2 lim2, with_monitoring_wrapper tool f av amount b impl cid g lim w
      = (g2, lim2, w2, .error e) := by
  have hc : FlagsConsistent f av := by
    rw [hf]
    exact check_consistent av el em er
  obtain ⟨lim2, hw⟩ := wrapper_reaches_impl tool f av amount b impl cid g lim w hc hnb
  refine ⟨bump_error f (apply_setups f g), lim2, ?_⟩
  rw [hw]
  unfold run_impl
  rw [himpl]

/-- Witness for claim C3: an implementation that moves the world from 7
to 10 and raises ValueError boom propagates exactly that error through
the wrapper. -/
theorem C3_witness :
    ∃ g2 lim2,
      with_monitoring_wrapper "echo" (check_optional_features ⟨true, true, true⟩ true true true)
        ⟨true, true, true⟩ 100 true implE none initGlobals (fun _ => 0) (7 : Nat)
      = (g2, lim2, 10, .error ⟨"ValueError", "boom"⟩) :=
  C3_error_passthrough "echo" (check_optional_features ⟨true, true, true⟩ true true true)
    ⟨true, true, true⟩ true true true 100 true implE none initGlobals (fun _ => 0) 7 10
    ⟨"ValueError", "boom"⟩ rfl (Or.inr rfl) rfl

/-- Claim C4: each of the three lazy initializers is idempotent — calling
it N ≥ 1 times (with flags as computed by `_check_optional_features`)
equals calling it once and never raises; from the fresh process state it
installs exactly one set of handlers, registers exactly one set of metric
instruments when metrics are enabled (none otherwise), and constructs the
limiter exactly when rate limiting is enabled; and when the feature flag
of an initializer is false, the call is a no-op that does not raise. -/
theorem C4_lazy_init_idempotent (f : Features) (av : Avail) (el em er b : Bool)
    (g : Globals) (n : Nat)
    (hf : f = check_optional_features av el em er) (hn : 1 ≤ n) :
    iterE (setup_logging f av) n g = .ok (apply_logging f g)
    ∧ iterE (setup_metrics f av b) n g = .ok (apply_metrics f g)
    ∧ iterE (setup_rate_limiting f av) n g = .ok (apply_rl f g)
    ∧ (apply_logging f initGlobals).log_handler_installs = 1
    ∧ (apply_metrics f initGlobals).metric_registrations
        = (if f.metrics_enabled then 1 else 0)
    ∧ (apply_rl f initGlobals).rate_limiter = f.rate_limiting
    ∧ (f.metrics_enabled = false → setup_metrics f av b g = .ok g)
    ∧ (f.rate_limiting = false → setup_rate_limiting f av g = .ok g) := by
  have hc : FlagsConsistent f av := by
    rw [hf]
    exact check_consistent av el em er
  obtain ⟨hcS, hcM, hcR⟩ := hc
  refine ⟨?_, ?_, ?_, ?_, ?_, ?_, ?_, ?_⟩
  · exact iterE_stable _ _ (fun g2 => setup_logging_eq f av g2 hcS)
      (apply_logging_idem f) n g hn
  · exact iterE_stable _ _ (fun g2 => setup_metrics_eq f av b g2 hcS hcM)
      (apply_metrics_idem f) n g hn
  · exact iterE_stable _ _ (fun g2 => setup_rate_limiting_eq f av g2 hcS hcR)
      (apply_rl_idem f) n g hn
  · rfl
  · cases hm : f.metrics_enabled with
    | false => simp [apply_metrics, hm, initGlobals]
    | true =>
      unfold apply_metrics
      rw [hm]
      simp only [Bool.not_true, Bool.false_or, Bool.false_eq_true, if_false,
        show initGlobals.request_count = false from rfl]
      rw [apply_logging_metric_registrations]
      simp [initGlobals]
  · cases hr : f.rate_limiting with
    | false => simp [apply_rl, hr, initGlobals]
    | true =>
      unfold apply_rl
      rw [hr]
      simp only [Bool.not_true, Bool.or_false, if_false,
        show initGlobals.rate_limiter = false from rfl, Bool.false_eq_true]
      rw [apply_logging_rate_limiter]
  · intro h
    unfold setup_metrics
    simp [h]
  · intro h
    unfold setup_rate_limiting
    simp [h]

/-- Witness for claim C4: with every backend available and every feature
enabled, three consecutive calls of each initializer from the fresh state
equal a single call, and the single-call counters are as claimed. -/
theorem C4_witness :
    iterE (setup_logging (check_optional_features ⟨true, true, true⟩ true true true)
        ⟨true, true, true⟩) 3 initGlobals
      = .ok (apply_logging (check_optional_features ⟨true, true, true⟩ true true true) initGlobals)
    ∧ iterE (setup_metrics (check_optional_features ⟨true, true, true⟩ true true true)
        ⟨true, true, true⟩ true) 3 initGlobals
      = .ok (apply_metrics (check_optional_features ⟨true, true, true⟩ true true true) initGlobals)
    ∧ iterE (setup_rate_limiting (check_optional_features ⟨true, true, true⟩ true true true)
        ⟨true, true, true⟩) 3 initGlobals
      = .ok (apply_rl (check_optional_features ⟨true, true, true⟩ true true true) initGlobals)
    ∧ (apply_logging (check_optional_features ⟨true, true, true⟩ true true true)
        initGlobals).log_handler_installs = 1
    ∧ (apply_metrics (check_optional_features ⟨true, true, true⟩ true true true)
        initGlobals).metric_registrations
      = (if (check_optional_features ⟨true, true, true⟩ true true true).metrics_enabled
          then 1 else 0)
    ∧ (apply_rl (check_optional_features ⟨true, true, true⟩ true true true)
        initGlobals).rate_limiter
      = (check_optional_features ⟨true, true, true⟩ true true true).rate_limiting
    ∧ ((check_optional_features ⟨true, true, true⟩ true true true).metrics_enabled = false →
        setup_metrics (check_optional_features ⟨true, true, true⟩ true true true)
          ⟨true, true, true⟩ true initGlobals = .ok initGlobals)
    ∧ ((check_optional_features ⟨true, true, true⟩ true true true).rate_limiting = false →
        setup_rate_limiting (check_optional_features ⟨true, true, true⟩ true true true)
          ⟨true, true, true⟩ initGlobals = .ok initGlobals) :=
  C4_lazy_init_idempotent (check_optional_features ⟨true, true, true⟩ true true true)
    ⟨true, true, true⟩ true true true true initGlobals 3 rfl (by omega)

/-- Claim C5: for every command whose subprocess spawns and completes
within the timeout, `run_command` returns a result (it does not raise)
whose success field is true exactly when the exit code is 0, with the
exit code reported in the return-code field. -/
theorem C5_success_iff_exit_zero (command : List String) (cwd : Option String)
    (timeoutSecs : Nat) (rc : Int) (out err : String) (pycwd : String)
    (hne : command ≠ []) :
    ∃ r, run_command command cwd timeoutSecs (.completed rc out err) pycwd = .ok r
      ∧ (r.success = true ↔ rc = 0) ∧ r.return_code = rc := by
  unfold run_command subprocess_run
  rw [isEmpty_false_of_ne hne]
  refine ⟨_, rfl, ?_, rfl⟩
  show (rc == 0) = true ↔ rc = 0
  exact beq_iff_eq

/-- Witness for claim C5: a completed process with exit code 2 yields a
normal result with success false and return code 2. -/
theorem C5_witness :
    ∃ r, run_command ["false"] none 30 (.completed 2 "" "") "/workspace" = .ok r
      ∧ (r.success = true ↔ (2 : Int) = 0) ∧ r.return_code = 2 :=
  C5_success_iff_exit_zero ["false"] none 30 2 "" "" "/workspace" (by decide)

/-- Counterexample to claim C6 as stated: `run_command` itself, given the
empty argv, does not fail with an EmptyCommand error distinct from the
CommandExecutionFailed kind — it fails with exactly the
CommandExecutionFailed message wrapping the IndexError raised by
`subprocess.run`, and that message is not the EmptyCommand message. -/
theorem C6_empty_argv_is_exec_failure :
    run_command [] none 30 (.completed 0 "" "") "/workspace"
      = .error ⟨"MCPError", exec_failed_msg "list index out of range"⟩
    ∧ exec_failed_msg "list index out of range" ≠ "Empty command provided"
    ∧ msg_kind_of (exec_failed_msg "list index out of range") = "CommandExecutionFailed" :=
  ⟨rfl, by decide, rfl⟩

/-- Claim C6 as amended: the EmptyCommand rejection lives in
`run_shell_command`, not in `run_command` — a command string that is
empty or all whitespace is rejected there with the MCPError message
Empty command provided, before `run_command` runs and regardless of the
subprocess behaviour; `run_command` itself reports an empty argv with the
CommandExecutionFailed kind. -/
theorem C6_empty_command_rejected_in_shell (command directory : String) (dirExists : Bool)
    (behavior : ProcBehavior) (pycwd : String) (p : String)
    (hd : validate_path directory "/workspace" = .ok p)
    (hde : dirExists = true) (hempty : py_split command = []) :
    run_shell_command command directory dirExists behavior pycwd
      = .error ⟨"MCPError", "Empty command provided"⟩
    ∧ ∀ (b2 : ProcBehavior) (cwd2 : Option String) (t2 : Nat),
        ∃ e, run_command [] cwd2 t2 b2 pycwd = .error e
          ∧ msg_kind_of e.msg = "CommandExecutionFailed" := by
  constructor
  · unfold run_shell_command
    rw [hd, hde, hempty]
    rfl
  · intro b2 cwd2 t2
    refine ⟨⟨"MCPError", exec_failed_msg "list index out of range"⟩, rfl, rfl⟩

/-- Witness for claim C6 (amended): a blank command in the current
directory is rejected with Empty command provided. -/
theorem C6_witness :
    run_shell_command "   " "." true (.completed 0 "" "") "/workspace"
      = .error ⟨"MCPError", "Empty command provided"⟩
    ∧ ∀ (b2 : ProcBehavior) (cwd2 : Option String) (t2 : Nat),
        ∃ e, run_command [] cwd2 t2 b2 "/workspace" = .error e
          ∧ msg_kind_of e.msg = "CommandExecutionFailed" :=
  C6_empty_command_rejected_in_shell "   " "." true (.completed 0 "" "") "/workspace"
    "/workspace" rfl rfl rfl

/-- Claim C7: a subprocess that exceeds the timeout makes `run_command`
fail with the CommandTimeout error, any other spawn or execution failure
makes it fail with the CommandExecutionFailed error carrying the
underlying cause, and the two are distinguishable by the caller: the
fixed leading text of the two messages classifies every such error
unambiguously, whatever the command, timeout and cause. -/
theorem C7_timeout_vs_exec_failure (command : List String) (cwd : Option String)
    (timeoutSecs : Nat) (pycwd : String) (cause : String) (hne : command ≠ []) :
    run_command command cwd timeoutSecs .timedOut pycwd
      = .error ⟨"MCPError", timeout_msg timeoutSecs command⟩
    ∧ run_command command cwd timeoutSecs (.raised cause) pycwd
      = .error ⟨"MCPError", exec_failed_msg cause⟩
    ∧ msg_kind_of (timeout_msg timeoutSecs command) = "CommandTimeout"
    ∧ msg_kind_of (exec_failed_msg cause) = "CommandExecutionFailed" := by
  refine ⟨?_, ?_, ?_, ?_⟩
  · unfold run_command subprocess_run
    rw [isEmpty_false_of_ne hne]
    rfl
  · unfold run_command subprocess_run
    rw [isEmpty_false_of_ne hne]
    rfl
  · unfold msg_kind_of
    rw [py_startswith_of_data _ "Command timed out after "
      ((toString timeoutSecs).data ++ " seconds: ".data ++ (joinSpace command).data)
      (by simp [timeout_msg, data_append, List.append_assoc])]
    rfl
  · unfold msg_kind_of
    rw [py_not_startswith_of_data _ "Command timed out after "
      "Command execution failed: ".data cause.data
      (by simp [exec_failed_msg, data_append]) (by decide) (by decide)]
    rw [py_startswith_of_data _ "Command execution failed: " cause.data
      (by simp [exec_failed_msg, data_append])]
    rfl

/-- Witness for claim C7: a sleeping command under a 1-second timeout
gives the CommandTimeout message, and a spawn failure gives the
CommandExecutionFailed message; the classifier separates them. -/
theorem C7_witness :
    run_command ["sleep", "5"] none 1 .timedOut "/workspace"
      = .error ⟨"MCPError", timeout_msg 1 ["sleep", "5"]⟩
    ∧ run_command ["sleep", "5"] none 1 (.raised "No such file or directory") "/workspace"
      = .error ⟨"MCPError", exec_failed_msg "No such file or directory"⟩
    ∧ msg_kind_of (timeout_msg 1 ["sleep", "5"]) = "CommandTimeout"
    ∧ msg_kind_of (exec_failed_msg "No such file or directory") = "CommandExecutionFailed" :=
  C7_timeout_vs_exec_failure ["sleep", "5"] none 1 "/workspace" "No such file or directory"
    (by decide)

/-- Counterexample to claim C8 as stated: the sandbox-escape error is not
reported with a kind distinct from the canonicalization-failure kind.
For the escaping input `../../etc/passwd` the raised error is the single
`MCPError` kind and its message is the invalid-path wrap of the escape
text — it starts with the same Invalid path prefix that labels
canonicalization failures, because the `except Exception` clause of
`validate_path` catches and re-wraps the MCPError of the containment
check. -/
theorem C8_escape_reported_as_invalid_path :
    validate_path "../../etc/passwd" "/workspace"
      = .error ⟨"MCPError",
          invalid_path_msg "../../etc/passwd" (path_escape_msg "../../etc/passwd")⟩
    ∧ py_startswith
        (invalid_path_msg "../../etc/passwd" (path_escape_msg "../../etc/passwd"))
        "Invalid path " = true := by
  refine ⟨rfl, ?_⟩
  exact py_startswith_of_data _ _
    ("../../etc/passwd".data ++ ": ".data ++ (path_escape_msg "../../etc/passwd").data)
    (by simp [invalid_path_msg, data_append, List.append_assoc])

/-- Claim C8 as amended: every error raised by `validate_path` is of the
single `MCPError` kind, and its message is the invalid-path format
wrapping the path-escape text — so an escape is distinguishable from a
resolution failure only by the embedded text, not by a distinct error
kind. -/
theorem C8_single_error_kind (path basePath : String) (e : PyErr)
    (h : validate_path path basePath = .error e) :
    e.kind = "MCPError" ∧ e.msg = invalid_path_msg path (path_escape_msg path)
    ∧ py_startswith e.msg "Invalid path " = true := by
  simp only [validate_path] at h
  split at h
  · simp at h
  · simp only [Except.error.injEq] at h
    subst h
    refine ⟨rfl, rfl, ?_⟩
    exact py_startswith_of_data _ _
      (path.data ++ ": ".data ++ (path_escape_msg path).data)
      (by simp [invalid_path_msg, data_append, List.append_assoc])

/-- Witness for claim C8 (amended): the error raised for the absolute
path /etc/shadow has the MCPError kind and the wrapped message. -/
theorem C8_witness :
    (⟨"MCPError", invalid_path_msg "/etc/shadow" (path_escape_msg "/etc/shadow")⟩ : PyErr).kind
      = "MCPError"
    ∧ (⟨"MCPError", invalid_path_msg "/etc/shadow" (path_escape_msg "/etc/shadow")⟩ : PyErr).msg
      = invalid_path_msg "/etc/shadow" (path_escape_msg "/etc/shadow")
    ∧ py_startswith
        (PyErr.msg ⟨"MCPError", invalid_path_msg "/etc/shadow" (path_escape_msg "/etc/shadow")⟩)
        "Invalid path " = true :=
  C8_single_error_kind "/etc/shadow" "/workspace" _ rfl

/-- Claim C9 (code bug): the claim states that an absolute caller path
pointing outside the sandbox always fails, and that the empty relative
path resolves to the root itself.  The second part holds, but the first
is violated by the code: the absolute path `/workspace2/secret` lies
outside the root `/workspace` (it is not a descendant), yet the
string-prefix check accepts it and `validate_path` returns it. -/
theorem C9_absolute_sibling_accepted :
    validate_path "/workspace2/secret" "/workspace" = .ok "/workspace2/secret"
    ∧ py_startswith "/workspace2/secret" "/" = true
    ∧ descendant_of "/workspace2/secret" "/workspace" = false
    ∧ validate_path "" "/workspace" = .ok "/workspace" := ⟨rfl, rfl, rfl, rfl⟩

/-- Claim C10: the size limit of `read_file` is strict.  For a validated
path naming an existing regular UTF-8 file, the too-large error is raised
exactly when the file size strictly exceeds the limit, and a file whose
size equals the limit is read successfully with its content returned. -/
theorem C10_size_limit_strict (fp : String) (ms : Nat) (fs : FileStat) (p : String)
    (hv : validate_path fp "/workspace" = .ok p)
    (he : fs.exists_ = true) (hf2 : fs.is_file = true) (hu : fs.utf8_ok = true) :
    ((∃ e, read_file fp ms fs = .error e ∧ e.msg = too_large_msg fs.size ms) ↔ ms < fs.size)
    ∧ (fs.size = ms →
        ∃ r, read_file fp ms fs = .ok r ∧ r.content = fs.content ∧ r.size = fs.size) := by
  by_cases hs : ms < fs.size
  · have hr : read_file fp ms fs = .error ⟨"MCPError", too_large_msg fs.size ms⟩ := by
      unfold read_file
      rw [hv]
      simp [he, hf2, hs]
    rw [hr]
    refine ⟨⟨fun _ => hs, fun _ => ⟨_, rfl, rfl⟩⟩, fun hsz => absurd hs (by omega)⟩
  · have hr : read_file fp ms fs
        = .ok ⟨p, fs.content, fs.size, py_splitlines_count fs.content, "utf-8", "✅ Success"⟩ := by
      unfold read_file
      rw [hv]
      simp [he, hf2, hu, hs]
    rw [hr]
    refine ⟨⟨fun h => ?_, fun h => absurd h hs⟩, fun _ => ⟨_, rfl, rfl, rfl⟩⟩
    obtain ⟨e, he2, _⟩ := h
    exact absurd he2 (by simp)

/-- Witness for claim C10: a 5-byte file read with max size 5 succeeds
and returns its content; the too-large error would require 5 < 5. -/
theorem C10_witness :
    ((∃ e, read_file "notes.txt" 5 ⟨true, true, 5, true, "hello"⟩ = .error e
        ∧ e.msg = too_large_msg 5 5) ↔ 5 < 5)
    ∧ ((5 : Nat) = 5 →
        ∃ r, read_file "notes.txt" 5 ⟨true, true, 5, true, "hello"⟩ = .ok r
          ∧ r.content = "hello" ∧ r.size = 5) :=
  C10_size_limit_strict "notes.txt" 5 ⟨true, true, 5, true, "hello"⟩ "/workspace/notes.txt"
    rfl rfl rfl rfl

end MCPServer
